import Mathlib

/-
Verification of the typhon RabbitMQ transport and server endpoint dispatcher.

The embedding follows the Go source:
  * the rabbit package (rabbitTransport: Send, Respond, Listen, StopListening,
    handleRspDelivery, deliveryToMessage, and the package constants), and
  * the server package (Endpoint.HandleRequest, enrichError).

Concurrency and timers are embedded by making each select outcome an explicit
environment parameter: a select over channels becomes a value of an inductive
event type, and a broker publish becomes its recorded result. Go string maps
become association lists (first binding wins, as a Go map has unique keys);
a read of a missing key yields the zero value "" exactly where the Go code
relies on that (via Option.getD).
-/

set_option autoImplicit false

namespace Typhon

/-- Association-list lookup: the value bound to key k, if any.  Models reading
a Go map (unique keys; the first binding is the binding). -/
def getA {α : Type} : List (String × α) → String → Option α
  | [], _ => none
  | p :: rest, k => if p.1 = k then some p.2 else getA rest k

/-- Association-list erase: models `delete(m, k)` on a Go map. -/
def eraseA {α : Type} : List (String × α) → String → List (String × α)
  | [], _ => []
  | p :: rest, k => if p.1 = k then eraseA rest k else p :: eraseA rest k

/-- Association-list update: models `m[k] = v` on a Go map. -/
def setA {α : Type} (m : List (String × α)) (k : String) (v : α) : List (String × α) :=
  (k, v) :: eraseA m k

theorem getA_setA_self {α : Type} (m : List (String × α)) (k : String) (v : α) :
    getA (setA m k v) k = some v := by
  simp [setA, getA]

theorem getA_eraseA_self {α : Type} (m : List (String × α)) (k : String) :
    getA (eraseA m k) k = none := by
  induction m with
  | nil => rfl
  | cons p rest ih =>
    by_cases h : p.1 = k
    · simpa [eraseA, h] using ih
    · simpa [eraseA, getA, h] using ih

theorem getA_eraseA_ne {α : Type} (m : List (String × α)) (k k' : String) (h : k' ≠ k) :
    getA (eraseA m k) k' = getA m k' := by
  induction m with
  | nil => rfl
  | cons p rest ih =>
    by_cases hp : p.1 = k
    · have hp' : p.1 ≠ k' := by
        intro hk; exact h (hk.symm.trans hp)
      simp [eraseA, getA, hp, hp', ih, h, Ne.symm h]
    · by_cases hq : p.1 = k'
      · simp [eraseA, getA, hp, hq, h, Ne.symm h]
      · simp [eraseA, getA, hp, hq, ih, h, Ne.symm h]

theorem getA_setA_ne {α : Type} (m : List (String × α)) (k k' : String) (v : α) (h : k' ≠ k) :
    getA (setA m k v) k' = getA m k' := by
  rw [setA, getA]
  simp only [Ne.symm h, if_neg]
  exact getA_eraseA_ne m k k' h

/-- Byte sequences (Go []byte), abstracted as lists of bytes-as-naturals. -/
abbrev Bytes := List Nat

/-- String-to-string header maps (message.Headers and, at the wire boundary,
amqp.Table restricted to its string-valued entries: the Go code reads table
values with an `.(string)` assertion whose failure yields "", which is the
same observable as an absent key here). -/
abbrev Headers := List (String × String)

/-- Message model (message.Request / message.Response): id, service, endpoint,
headers, payload.  Responses leave service and endpoint at their zero value. -/
structure Msg where
  id : String
  service : String
  endpoint : String
  headers : Headers
  payload : Bytes
deriving Repr, DecidableEq

/-- An AMQP delivery as the transport reads it: correlation id, reply-to,
routing key, headers and body (amqp.Delivery). -/
structure Delivery where
  correlationId : String
  replyTo : String
  routingKey : String
  headers : Headers
  body : Bytes
deriving Repr, DecidableEq

/-- Name of the direct reply-to queue (constant DirectReplyQueue). -/
def DirectReplyQueue : String := "amq.rabbitmq.reply-to"

/-- Connect timeout in seconds (constant connectTimeout = 60 * time.Second). -/
def connectTimeoutSeconds : Nat := 60

/-- Channel hand-off timeout in seconds (constant chanSendTimeout = 10 * time.Second). -/
def chanSendTimeoutSeconds : Nat := 10

/-- Respond readiness timeout in seconds (constant respondTimeout = 10 * time.Second). -/
def respondTimeoutSeconds : Nat := 10

/-- Modelled from the spec: the conventional exchange name referred to as
Exchange; its definition lives in a rabbit-package file that is not under
src/.  Its concrete value is irrelevant to every claim. -/
def Exchange : String := "typhon"

/-- An amqp.Publishing as built by Send and Respond, together with the
exchange and routing key it is published under. -/
structure Publishing where
  exchange : String
  routingKey : String
  correlationId : String
  body : Bytes
  replyTo : Option String
  headers : Headers
deriving Repr, DecidableEq

/-- Transport state visible to the embedded operations: the in-flight
request map (correlation id to rendezvous channel, channels named by Nat
identities), the listener registry (delivery-channel name to tomb identity),
and the reply queue name (rabbitTransport fields inflightReqs, listeners,
replyQueue). -/
structure TransportState where
  inflightReqs : List (String × Nat)
  listeners : List (String × Nat)
  replyQueue : String
deriving Repr, DecidableEq

/-- Initial transport state (NewTransport). -/
def NewTransport : TransportState :=
  { inflightReqs := [], listeners := [], replyQueue := DirectReplyQueue }

/-- Name of the delivery channel for a service (deliveryChan). -/
def deliveryChan (serviceName : String) : String := serviceName

/-- Materialize a Response from a delivery (deliveryToMessage on a
message.Response): id from the correlation id, headers from the delivery
headers with X-Rabbit-ReplyTo set from the reply-to field, payload from the
body.  A Response is not a message.Request, so the Service/Endpoint branch
of deliveryToMessage does not run and both stay at their zero value. -/
def deliveryToResponse (d : Delivery) : Msg :=
  { id := d.correlationId
    service := ""
    endpoint := ""
    headers := setA d.headers "X-Rabbit-ReplyTo" d.replyTo
    payload := d.body }

/-- Observable outcome of handleRspDelivery: the response was handed to a
pending caller's rendezvous channel, or it matched no in-flight request, or
the 10 s hand-off timer fired first, or the delivery was dropped for a wrong
Content-Encoding. -/
inductive RspEffect
  | delivered (ch : Nat) (rsp : Msg)
  | unmatched
  | handoffTimedOut
  | dropped
deriving Repr, DecidableEq

/-- Reply-consumer delivery handler (handleRspDelivery).  handoffOk says
whether the rendezvous send wins its select against the 10 s hand-off timer.
The in-flight entry is deleted under the lock whether or not it existed,
exactly as the Go code does. -/
def handleRspDelivery (st : TransportState) (d : Delivery) (handoffOk : Bool) :
    TransportState × RspEffect :=
  let enc := (getA d.headers "Content-Encoding").getD ""
  if enc = "response" then
    let rsp := deliveryToResponse d
    match getA st.inflightReqs rsp.id with
    | some ch =>
      ({ st with inflightReqs := eraseA st.inflightReqs rsp.id },
        if handoffOk then RspEffect.delivered ch rsp else RspEffect.handoffTimedOut)
    | none =>
      ({ st with inflightReqs := eraseA st.inflightReqs rsp.id }, RspEffect.unmatched)
  else
    (st, RspEffect.dropped)

/-- Errors a Send can return: a uuid generation failure (returned verbatim),
transport.ErrTimeout from either select, or a broker publish error (returned
verbatim). -/
inductive SendError
  | uuidFailure (e : String)
  | timeout
  | publishFailure (e : String)
deriving Repr, DecidableEq

/-- Environment of one Send call, making each nondeterministic outcome of the
Go code explicit: the result of uuid.NewV4, the identity of the fresh
rendezvous channel, whether the readiness broadcast beats the caller timer,
the result of Publish, and what the final select reads from the rendezvous
channel before the timer fires (none: the timer fires first). -/
structure SendEnv where
  uuid : Except String String
  chanId : Nat
  readyFirst : Bool
  pubResult : Option String
  rspSlot : Option Msg
deriving Repr

/-- Result of a Send call: the returned value or error, the request as Send
leaves it (Send mutates its id and headers in place), the final transport
state, and the publishing handed to the broker, if any. -/
structure SendRes where
  result : Except SendError Msg
  req : Msg
  state : TransportState
  published : Option Publishing
deriving Repr

/-- Headers as Send sets them before publishing: Content-Encoding, Service
and Endpoint on top of the caller's headers. -/
def sendHeaders (req : Msg) : Headers :=
  setA (setA (setA req.headers "Content-Encoding" "request") "Service" req.service)
    "Endpoint" req.endpoint

/-- Transport state after Send registers its rendezvous channel under the
request id (inflightReqs[rspQueue] = rspChan). -/
def sendRegState (st : TransportState) (rspQueue : String) (chanId : Nat) : TransportState :=
  { st with inflightReqs := setA st.inflightReqs rspQueue chanId }

/-- Transport state after Send's deferred delete of its rendezvous entry. -/
def sendDeregState (st : TransportState) (rspQueue : String) : TransportState :=
  { st with inflightReqs := eraseA st.inflightReqs rspQueue }

/-- The publishing Send hands to the broker: conventional exchange, the
service name as routing key, correlation id = request id, reply-to = the
transport reply queue, and the headers set by sendHeaders. -/
def sendPub (st : TransportState) (req : Msg) : Publishing :=
  { exchange := Exchange
    routingKey := req.service
    correlationId := req.id
    body := req.payload
    replyTo := some st.replyQueue
    headers := sendHeaders req }

/-- Send after the id is settled (the part of Send from rspQueue := req.Id()
on): register the rendezvous, arrange its removal on every exit path, set
headers, wait for readiness or the caller timer, publish, then wait on the
rendezvous or the timer. -/
def sendRegistered (st : TransportState) (req : Msg) (env : SendEnv) : SendRes :=
  let rspQueue := req.id
  let st1 := sendRegState st rspQueue env.chanId
  let req1 := { req with headers := sendHeaders req }
  if env.readyFirst then
    match env.pubResult with
    | some e =>
      { result := Except.error (SendError.publishFailure e)
        req := req1
        state := sendDeregState st1 rspQueue
        published := some (sendPub st req) }
    | none =>
      match env.rspSlot with
      | some rsp =>
        { result := Except.ok rsp
          req := req1
          state := sendDeregState st1 rspQueue
          published := some (sendPub st req) }
      | none =>
        { result := Except.error SendError.timeout
          req := req1
          state := sendDeregState st1 rspQueue
          published := some (sendPub st req) }
  else
    { result := Except.error SendError.timeout
      req := req1
      state := sendDeregState st1 rspQueue
      published := none }

/-- The Send path: if the request has no id, assign a fresh uuid (a
generation failure is returned to the caller before anything is registered);
then run the registered phase. -/
def Send (st : TransportState) (req : Msg) (env : SendEnv) : SendRes :=
  if req.id = "" then
    match env.uuid with
    | Except.error e =>
      { result := Except.error (SendError.uuidFailure e)
        req := req
        state := st
        published := none }
    | Except.ok u => sendRegistered st { req with id := u } env
  else
    sendRegistered st req env

/-- Errors a Respond can return: tomb.ErrDying, transport.ErrTimeout, or the
broker publish error verbatim. -/
inductive RespondError
  | errDying
  | timeout
  | publishFailure (e : String)
deriving Repr, DecidableEq

/-- Which event wins Respond's readiness select: the readiness broadcast, the
transport tomb dying, or the 10 s timer. -/
inductive RespondEvent
  | ready
  | transportDying
  | timedOut
deriving Repr, DecidableEq

/-- Result of a Respond call: the returned error (none on success), the
publishing handed to the broker if the code reached Publish, and the response
headers as Respond leaves them (it mutates the response's header map before
waiting). -/
structure RespondRes where
  err : Option RespondError
  published : Option Publishing
  rspHeaders : Headers
deriving Repr, DecidableEq

/-- The Respond path: set Content-Encoding = "response" on the response's
headers, wait for readiness against the transport tomb and a 10 s timer, and
publish to the default exchange with routing key = the request's
X-Rabbit-ReplyTo header, correlation id = the response id, body = the
response payload.  The publish result is returned verbatim. -/
def Respond (req rsp : Msg) (ev : RespondEvent) (pubResult : Option String) : RespondRes :=
  let headers := setA rsp.headers "Content-Encoding" "response"
  match ev with
  | RespondEvent.transportDying =>
    { err := some RespondError.errDying, published := none, rspHeaders := headers }
  | RespondEvent.timedOut =>
    { err := some RespondError.timeout, published := none, rspHeaders := headers }
  | RespondEvent.ready =>
    { err := pubResult.map RespondError.publishFailure
      published := some
        { exchange := ""
          routingKey := (getA req.headers "X-Rabbit-ReplyTo").getD ""
          correlationId := rsp.id
          body := rsp.payload
          replyTo := none
          headers := headers }
      rspHeaders := headers }

/-- Errors a Listen can return via its handshake channel:
transport.ErrAlreadyListening, transport.ErrTimeout after the 60 s connect
timer, or a Consume error verbatim.  (A handshake channel closed without a
value reads as a nil error in Go; that is the none case of the result.) -/
inductive ListenError
  | alreadyListening
  | timeout
  | consumeFailure (e : String)
deriving Repr, DecidableEq

/-- Which event settles the listener's startup phase, when Listen gets past
duplicate registration: the transport tomb dies, the listener's own tomb is
killed, the 60 s connect timer fires, Consume fails, or Consume succeeds and
the listener enters its delivery loop. -/
inductive ListenEnv
  | transportDying
  | listenerKilled
  | connectTimedOut
  | consumeFailed (e : String)
  | consumeOk
deriving Repr, DecidableEq

/-- Result of a Listen call: the error the caller gets back from the
handshake channel (none when listening began, and also when the tomb died
first and the closed handshake channel read as nil), the listener registry
afterwards, and whether the caller's channel rc was closed by the listener's
deferred cleanup. -/
structure ListenRes where
  err : Option ListenError
  listeners : List (String × Nat)
  rcClosed : Bool
deriving Repr, DecidableEq

/-- The Listen path: under the listener lock, refuse a duplicate service
registration without touching the caller's channel; otherwise install the
listener tomb (identity tmId) and run the startup phase, whose every
non-successful exit runs the deferred cleanup (deregister and close rc). -/
def Listen (st : TransportState) (serviceName : String) (tmId : Nat) (env : ListenEnv) :
    ListenRes :=
  let cn := deliveryChan serviceName
  match getA st.listeners cn with
  | some _ =>
    { err := some ListenError.alreadyListening, listeners := st.listeners, rcClosed := false }
  | none =>
    let ls1 := setA st.listeners cn tmId
    match env with
    | ListenEnv.transportDying =>
      { err := none, listeners := eraseA ls1 cn, rcClosed := true }
    | ListenEnv.listenerKilled =>
      { err := none, listeners := eraseA ls1 cn, rcClosed := true }
    | ListenEnv.connectTimedOut =>
      { err := some ListenError.timeout, listeners := eraseA ls1 cn, rcClosed := true }
    | ListenEnv.consumeFailed e =>
      { err := some (ListenError.consumeFailure e), listeners := eraseA ls1 cn, rcClosed := true }
    | ListenEnv.consumeOk =>
      { err := none, listeners := ls1, rcClosed := false }

/-- The StopListening path: under the listener read lock, look up the
listener tomb for the service; if present, kill it and wait for the listener
to exit — its deferred cleanup deregisters the entry and closes its channel
before the tomb dies, so after Wait the entry is gone — and return true; if
absent, return false having changed nothing. -/
def StopListening (st : TransportState) (serviceName : String) : Bool × TransportState :=
  match getA st.listeners (deliveryChan serviceName) with
  | some _ =>
    (true, { st with listeners := eraseA st.listeners (deliveryChan serviceName) })
  | none => (false, st)

/-- Decoded protobuf values, abstracted: the dispatcher never inspects them,
it only allocates, decodes into, and passes them on. -/
abbrev ProtoMsg := Bytes

/-- A server request as HandleRequest sees it: service name, raw payload,
and the typed body slot that SetBody fills. -/
structure ServerRequest where
  service : String
  payload : Bytes
  body : Option ProtoMsg
deriving Repr, DecidableEq

/-- The canonical error type of the errors package (errors.Error), reduced
to the parts HandleRequest and enrichError observe: the message and the
private context map. -/
structure CanonError where
  message : String
  privateContext : Headers
deriving Repr, DecidableEq

/-- An error value as Go sees it: either a plain error (fmt.Errorf) or one
that is already canonical, coming from deeper in the stack. -/
inductive GoError
  | plain (message : String)
  | canonical (e : CanonError)
deriving Repr, DecidableEq

/-- Modelled from the spec: errors.Wrap, from the errors package, which is
part of this repository but not under src/.  It wraps into the canonical
error type; per the endpoint.go comment, an error that came from somewhere
down the stack is not modified, and a plain error gets an empty private
context. -/
def Wrap : GoError → CanonError
  | GoError.plain m => { message := m, privateContext := [] }
  | GoError.canonical e => e

/-- An endpoint as the dispatcher sees it (server.Endpoint): its name, the
user handler returning a response and an error, and the Request prototype.
The prototype is embedded as an optional decoder: none models a nil
Endpoint.Request; some decode models a non-nil prototype, where decode is
proto.Unmarshal into a fresh cloneTypedPtr allocation of that prototype's
shape (returning none exactly when proto.Unmarshal errors). -/
structure Endpoint where
  name : String
  handler : ServerRequest → Option ProtoMsg × Option GoError
  requestProto : Option (Bytes → Option ProtoMsg)

/-- Error enrichment (enrichError): wrap into the canonical error type, then
set the private context keys service and endpoint only when the key is
currently empty — a Go map read of a missing key yields "", so an absent key
counts as unset. -/
def enrichError (err : GoError) (ctx : ServerRequest) (e : Endpoint) : CanonError :=
  let w := Wrap err
  let w1 :=
    if (getA w.privateContext "service").getD "" = "" then
      { w with privateContext := setA w.privateContext "service" ctx.service }
    else w
  if (getA w1.privateContext "endpoint").getD "" = "" then
    { w1 with privateContext := setA w1.privateContext "endpoint" e.name }
  else w1

/-- Invocation of the user handler with error enrichment (the tail of
HandleRequest from the Handler call on): a handler error is enriched, a
success is returned as is. -/
def handleDecoded (e : Endpoint) (req : ServerRequest) : Option ProtoMsg × Option CanonError :=
  match e.handler req with
  | (resp, some err) => (resp, some (enrichError err req e))
  | (resp, none) => (resp, none)

/-- The dispatcher (Endpoint.HandleRequest): when the Request prototype is
set, decode the payload into a fresh value of its shape — failure returns
Wrap of the plain error "Could not unmarshal request" without invoking the
handler — and attach the decoded body; when the prototype is nil, skip
decoding and invoke the handler on the request as it came in. -/
def HandleRequest (e : Endpoint) (req : ServerRequest) : Option ProtoMsg × Option CanonError :=
  match e.requestProto with
  | some decode =>
    match decode req.payload with
    | none => (none, some (Wrap (GoError.plain "Could not unmarshal request")))
    | some body => handleDecoded e { req with body := some body }
  | none => handleDecoded e req

/-- Concrete fixtures used by the witnesses below. -/
def sendW_st : TransportState := NewTransport

def sendW_req : Msg :=
  { id := "req-1", service := "svc", endpoint := "ep", headers := [], payload := [1] }

def sendW_req_noid : Msg :=
  { id := "", service := "svc", endpoint := "ep", headers := [], payload := [1] }

def sendW_d : Delivery :=
  { correlationId := "req-1", replyTo := "rt", routingKey := "amq.rabbitmq.reply-to"
    headers := [("Content-Encoding", "response")], body := [7, 8] }

def sendW_env : SendEnv :=
  { uuid := Except.ok "u", chanId := 5, readyFirst := true, pubResult := none
    rspSlot := some (deliveryToResponse sendW_d) }

def sendW_envErr : SendEnv :=
  { uuid := Except.error "boom", chanId := 0, readyFirst := false, pubResult := none
    rspSlot := none }

def listenW_st : TransportState := { NewTransport with listeners := [("svc", 3)] }

def garbageW_d : Delivery :=
  { correlationId := "req-1", replyTo := "rt", routingKey := "q"
    headers := [("Content-Encoding", "garbage")], body := [] }

/-- C1: while a Send for a request with id I is in flight (its rendezvous
channel registered under I), a delivery carrying correlation id I, header
Content-Encoding exactly "response" and body B is turned into the Response
handed to that very channel, and Send returns that Response, whose id is I
and whose payload is B. -/
theorem send_reply_correlation (st : TransportState) (req : Msg) (env : SendEnv) (d : Delivery)
    (hid : req.id ≠ "")
    (henc : getA d.headers "Content-Encoding" = some "response")
    (hcorr : d.correlationId = req.id)
    (hready : env.readyFirst = true)
    (hpub : env.pubResult = none)
    (hslot : env.rspSlot = some (deliveryToResponse d)) :
    (handleRspDelivery (sendRegState st req.id env.chanId) d true).2
      = RspEffect.delivered env.chanId (deliveryToResponse d)
    ∧ (Send st req env).result = Except.ok (deliveryToResponse d)
    ∧ (deliveryToResponse d).id = req.id
    ∧ (deliveryToResponse d).payload = d.body := by
  have hrid : (deliveryToResponse d).id = req.id := by
    simp [deliveryToResponse, hcorr]
  refine ⟨?_, ?_, hrid, rfl⟩
  · simp only [handleRspDelivery, henc, Option.getD_some, if_pos]
    rw [sendRegState]
    simp only [hrid]
    rw [getA_setA_self]
  · simp [Send, hid, sendRegistered, hready, hpub, hslot]

/-- C1 witness: the round trip at a concrete request and delivery. -/
theorem send_reply_correlation_witness :
    (handleRspDelivery (sendRegState sendW_st sendW_req.id sendW_env.chanId) sendW_d true).2
      = RspEffect.delivered sendW_env.chanId (deliveryToResponse sendW_d)
    ∧ (Send sendW_st sendW_req sendW_env).result = Except.ok (deliveryToResponse sendW_d)
    ∧ (deliveryToResponse sendW_d).id = sendW_req.id
    ∧ (deliveryToResponse sendW_d).payload = sendW_d.body :=
  send_reply_correlation sendW_st sendW_req sendW_env sendW_d (by decide) (by decide) rfl rfl
    rfl rfl

/-- C2: whatever exit path a Send takes — response received, readiness or
response timeout, publish error, or uuid generation failure — the in-flight
entry keyed by the request's id is absent from inflightReqs when Send
returns.  The hypothesis states invariant 1 of the spec for the empty id:
the empty string is never an in-flight key (Send registers only non-empty
ids), which is all the uuid-failure path needs since it exits before
registering anything. -/
theorem send_inflight_entry_absent (st : TransportState) (req : Msg) (env : SendEnv)
    (h : getA st.inflightReqs "" = none) :
    getA (Send st req env).state.inflightReqs (Send st req env).req.id = none := by
  rcases env with ⟨uuid, chanId, readyFirst, pubResult, rspSlot⟩
  by_cases hid : req.id = ""
  · cases uuid with
    | error e => simpa [Send, hid] using h
    | ok u =>
      cases readyFirst <;> cases pubResult <;> cases rspSlot <;>
        simp [Send, hid, sendRegistered, sendDeregState, sendRegState, getA_eraseA_self]
  · cases readyFirst <;> cases pubResult <;> cases rspSlot <;>
      simp [Send, hid, sendRegistered, sendDeregState, sendRegState, getA_eraseA_self]

/-- C2 witness: concrete Sends leaving no in-flight entry behind, on the
response path and on the uuid-failure path. -/
theorem send_inflight_entry_absent_witness :
    getA (Send NewTransport sendW_req sendW_env).state.inflightReqs
      (Send NewTransport sendW_req sendW_env).req.id = none
    ∧ getA (Send NewTransport sendW_req_noid sendW_envErr).state.inflightReqs
      (Send NewTransport sendW_req_noid sendW_envErr).req.id = none :=
  ⟨send_inflight_entry_absent NewTransport sendW_req sendW_env rfl,
   send_inflight_entry_absent NewTransport sendW_req_noid sendW_envErr rfl⟩

/-- C3: a caller-provided non-empty id is never overwritten; only an empty
id is replaced by the freshly generated uuid, and a uuid generation failure
is returned to the caller as the error (with the request untouched). -/
theorem send_id_assignment (st : TransportState) (req : Msg) (env : SendEnv) :
    (req.id ≠ "" → (Send st req env).req.id = req.id)
    ∧ (∀ u, req.id = "" → env.uuid = Except.ok u → (Send st req env).req.id = u)
    ∧ (∀ e, req.id = "" → env.uuid = Except.error e →
        (Send st req env).result = Except.error (SendError.uuidFailure e)
        ∧ (Send st req env).req = req) := by
  rcases env with ⟨uuid, chanId, readyFirst, pubResult, rspSlot⟩
  refine ⟨?_, ?_, ?_⟩
  · intro hid
    cases readyFirst <;> cases pubResult <;> cases rspSlot <;>
      simp [Send, hid, sendRegistered]
  · intro u hid hu
    subst hu
    cases readyFirst <;> cases pubResult <;> cases rspSlot <;>
      simp [Send, hid, sendRegistered]
  · intro e hid hu
    subst hu
    simp [Send, hid]

/-- C3 witness: a non-empty id survives, an empty id takes the generated
uuid, and a generation failure comes back as the error. -/
theorem send_id_assignment_witness :
    (Send NewTransport sendW_req sendW_env).req.id = sendW_req.id
    ∧ (Send NewTransport sendW_req_noid sendW_env).req.id = "u"
    ∧ (Send NewTransport sendW_req_noid sendW_envErr).result
      = Except.error (SendError.uuidFailure "boom") :=
  ⟨(send_id_assignment NewTransport sendW_req sendW_env).1 (by decide),
   (send_id_assignment NewTransport sendW_req_noid sendW_env).2.1 "u" rfl rfl,
   ((send_id_assignment NewTransport sendW_req_noid sendW_envErr).2.2 "boom" rfl rfl).1⟩

/-- C5: a second Listen on a service that already has a listener entry
returns AlreadyListening, performs no channel operation on the caller's
channel, and leaves the existing entry exactly as it was. -/
theorem listen_duplicate_refused (st : TransportState) (s : String) (tmId tm0 : Nat)
    (env : ListenEnv)
    (h : getA st.listeners (deliveryChan s) = some tm0) :
    Listen st s tmId env
      = { err := some ListenError.alreadyListening, listeners := st.listeners, rcClosed := false }
    ∧ getA (Listen st s tmId env).listeners (deliveryChan s) = some tm0 := by
  constructor
  · simp [Listen, h]
  · simp [Listen, h]

/-- C5 witness: a duplicate Listen on the svc listener entry. -/
theorem listen_duplicate_refused_witness :
    Listen listenW_st "svc" 9 ListenEnv.consumeOk
      = { err := some ListenError.alreadyListening, listeners := listenW_st.listeners
          rcClosed := false }
    ∧ getA (Listen listenW_st "svc" 9 ListenEnv.consumeOk).listeners (deliveryChan "svc")
      = some 3 :=
  listen_duplicate_refused listenW_st "svc" 9 3 ListenEnv.consumeOk (by decide)

/-- C6: a reply-queue delivery whose Content-Encoding header is not exactly
"response" (including an absent or non-string header, which Go's type
assertion reads as "") is dropped: the transport state, inflightReqs
included, is unchanged and no rendezvous channel is handed a value. -/
theorem rsp_delivery_wrong_encoding_dropped (st : TransportState) (d : Delivery)
    (handoffOk : Bool)
    (h : (getA d.headers "Content-Encoding").getD "" ≠ "response") :
    handleRspDelivery st d handoffOk = (st, RspEffect.dropped) := by
  simp [handleRspDelivery, h]

/-- C6 witness: a delivery with Content-Encoding "garbage" is dropped even
with an in-flight entry matching its correlation id. -/
theorem rsp_delivery_wrong_encoding_dropped_witness :
    handleRspDelivery { NewTransport with inflightReqs := [("req-1", 5)] } garbageW_d true
      = ({ NewTransport with inflightReqs := [("req-1", 5)] }, RspEffect.dropped) :=
  rsp_delivery_wrong_encoding_dropped { NewTransport with inflightReqs := [("req-1", 5)] }
    garbageW_d true (by decide)

/-- C7: Respond sets Content-Encoding to "response" on the response headers,
waits for readiness on a 10 second timer returning Timeout on expiry, and
otherwise publishes to the default exchange with routing key the request's
X-Rabbit-ReplyTo header, correlation id the response's id and body its
payload, returning the publish result verbatim. -/
theorem respond_behavior (req rsp : Msg) (pubResult : Option String) (ev : RespondEvent) :
    respondTimeoutSeconds = 10
    ∧ getA (Respond req rsp ev pubResult).rspHeaders "Content-Encoding" = some "response"
    ∧ (Respond req rsp RespondEvent.timedOut pubResult).err = some RespondError.timeout
    ∧ (Respond req rsp RespondEvent.timedOut pubResult).published = none
    ∧ (Respond req rsp RespondEvent.ready pubResult).published = some
        { exchange := ""
          routingKey := (getA req.headers "X-Rabbit-ReplyTo").getD ""
          correlationId := rsp.id
          body := rsp.payload
          replyTo := none
          headers := setA rsp.headers "Content-Encoding" "response" }
    ∧ (Respond req rsp RespondEvent.ready pubResult).err
      = pubResult.map RespondError.publishFailure := by
  refine ⟨rfl, ?_, rfl, rfl, rfl, rfl⟩
  cases ev <;> simp [Respond, getA_setA_self]

/-- C8: enrichError wraps into the canonical error type preserving the
message, and sets each of the private context keys service and endpoint to
the ambient value exactly when that key currently reads as empty, leaving an
already non-empty value and every other key untouched. -/
theorem enrich_sets_only_unset (err : GoError) (ctx : ServerRequest) (e : Endpoint) :
    getA (enrichError err ctx e).privateContext "service"
      = (if (getA (Wrap err).privateContext "service").getD "" = "" then some ctx.service
         else getA (Wrap err).privateContext "service")
    ∧ getA (enrichError err ctx e).privateContext "endpoint"
      = (if (getA (Wrap err).privateContext "endpoint").getD "" = "" then some e.name
         else getA (Wrap err).privateContext "endpoint")
    ∧ (∀ k, k ≠ "service" → k ≠ "endpoint" →
        getA (enrichError err ctx e).privateContext k = getA (Wrap err).privateContext k)
    ∧ (enrichError err ctx e).message = (Wrap err).message := by
  have g1 : ∀ (m : Headers) (v : String),
      getA (setA m "service" v) "endpoint" = getA m "endpoint" :=
    fun m v => getA_setA_ne m "service" "endpoint" v (by decide)
  have g2 : ∀ (m : Headers) (v : String),
      getA (setA m "endpoint" v) "service" = getA m "service" :=
    fun m v => getA_setA_ne m "endpoint" "service" v (by decide)
  by_cases hs : (getA (Wrap err).privateContext "service").getD "" = "" <;>
    by_cases he : (getA (Wrap err).privateContext "endpoint").getD "" = "" <;>
      refine ⟨?_, ?_, ?_, ?_⟩ <;>
        first
        | (intro k hks hke
           simp [enrichError, hs, he, g1, g2, getA_setA_self,
             getA_setA_ne _ _ k _ hks, getA_setA_ne _ _ k _ hke])
        | simp [enrichError, hs, he, g1, g2, getA_setA_self]

/-- C8 witness: a deep error with a non-empty service key keeps it, while
the unset endpoint key is filled in, and an unrelated key is untouched. -/
theorem enrich_sets_only_unset_witness :
    getA (enrichError (GoError.canonical { message := "boom", privateContext := [("service", "deep")] })
        { service := "svc", payload := [], body := none }
        { name := "ep", handler := fun _ => (none, none), requestProto := none }).privateContext
      "service"
      = (if (getA (Wrap (GoError.canonical { message := "boom", privateContext := [("service", "deep")] })).privateContext "service").getD "" = ""
         then some "svc"
         else getA (Wrap (GoError.canonical { message := "boom", privateContext := [("service", "deep")] })).privateContext "service")
    ∧ getA (enrichError (GoError.canonical { message := "boom", privateContext := [("service", "deep")] })
        { service := "svc", payload := [], body := none }
        { name := "ep", handler := fun _ => (none, none), requestProto := none }).privateContext
      "other"
      = getA (Wrap (GoError.canonical { message := "boom", privateContext := [("service", "deep")] })).privateContext "other" :=
  ⟨(enrich_sets_only_unset (GoError.canonical { message := "boom", privateContext := [("service", "deep")] })
      { service := "svc", payload := [], body := none }
      { name := "ep", handler := fun _ => (none, none), requestProto := none }).1,
   (enrich_sets_only_unset (GoError.canonical { message := "boom", privateContext := [("service", "deep")] })
      { service := "svc", payload := [], body := none }
      { name := "ep", handler := fun _ => (none, none), requestProto := none }).2.2.1
     "other" (by decide) (by decide)⟩

/-- C9: StopListening returns true exactly when a listener entry for the
service exists; in that case it kills the listener and waits for its
deferred cleanup, after which the entry is gone; with no entry it returns
false and changes nothing. -/
theorem stopListening_iff_registered (st : TransportState) (s : String) :
    ((StopListening st s).1 = true ↔ (getA st.listeners (deliveryChan s)).isSome = true)
    ∧ (getA st.listeners (deliveryChan s) = none → StopListening st s = (false, st))
    ∧ ((getA st.listeners (deliveryChan s)).isSome = true →
        getA (StopListening st s).2.listeners (deliveryChan s) = none
        ∧ (StopListening st s).2.listeners = eraseA st.listeners (deliveryChan s)) := by
  cases hh : getA st.listeners (deliveryChan s) with
  | none => simp [StopListening, hh]
  | some tm => simp [StopListening, hh, getA_eraseA_self]

/-- C9 witness: stopping the live svc listener succeeds and deregisters it;
stopping on a fresh transport returns false and changes nothing. -/
theorem stopListening_iff_registered_witness :
    ((StopListening listenW_st "svc").1 = true
      ↔ (getA listenW_st.listeners (deliveryChan "svc")).isSome = true)
    ∧ getA (StopListening listenW_st "svc").2.listeners (deliveryChan "svc") = none
    ∧ StopListening NewTransport "svc" = (false, NewTransport) :=
  ⟨(stopListening_iff_registered listenW_st "svc").1,
   ((stopListening_iff_registered listenW_st "svc").2.2 rfl).1,
   (stopListening_iff_registered NewTransport "svc").2.1 rfl⟩

/-- Fixtures for the endpoint dispatcher claims. -/
def badDecodeEndpoint : Endpoint :=
  { name := "ep"
    handler := fun r => (some r.payload, none)
    requestProto := some (fun _ => none) }

def badDecodeRequest : ServerRequest :=
  { service := "svc", payload := [0], body := none }

def nilProtoEndpoint : Endpoint :=
  { name := "np", handler := fun r => (r.body, none), requestProto := none }

/-- C4 counterexample: at a concrete endpoint whose decode fails, with
non-empty service and endpoint names, HandleRequest returns the wrapped
"Could not unmarshal request" error whose private context holds neither a
service nor an endpoint key — the error is not enriched, contradicting the
claim. -/
theorem handleRequest_decode_not_enriched_cex :
    (HandleRequest badDecodeEndpoint badDecodeRequest).2
      = some { message := "Could not unmarshal request", privateContext := [] }
    ∧ badDecodeRequest.service = "svc"
    ∧ badDecodeEndpoint.name = "ep"
    ∧ getA (({ message := "Could not unmarshal request", privateContext := [] } : CanonError)).privateContext "service" = none
    ∧ getA (({ message := "Could not unmarshal request", privateContext := [] } : CanonError)).privateContext "endpoint" = none :=
  ⟨rfl, rfl, rfl, rfl, rfl⟩

/-- C4 as amended: when the payload fails to decode into the endpoint's
request prototype, the user handler is never invoked and HandleRequest
returns the wrapped plain error "Could not unmarshal request"; that error is
not enriched with service or endpoint context, since enrichment runs only on
handler errors. -/
theorem handleRequest_decode_failure (e : Endpoint) (req : ServerRequest)
    (decode : Bytes → Option ProtoMsg)
    (hp : e.requestProto = some decode) (hd : decode req.payload = none) :
    HandleRequest e req = (none, some (Wrap (GoError.plain "Could not unmarshal request")))
    ∧ (∀ h2, HandleRequest { e with handler := h2 } req = HandleRequest e req) := by
  constructor
  · simp [HandleRequest, hp, hd]
  · intro h2
    simp [HandleRequest, hp, hd]

/-- C4 witness: the amended claim at the concrete failing fixture. -/
theorem handleRequest_decode_failure_witness :
    HandleRequest badDecodeEndpoint badDecodeRequest
      = (none, some (Wrap (GoError.plain "Could not unmarshal request"))) :=
  (handleRequest_decode_failure badDecodeEndpoint badDecodeRequest (fun _ => none) rfl rfl).1

/-- C10: with a nil Request prototype, HandleRequest skips decoding
entirely and invokes the user handler directly on the request as it came in
— the body slot is never filled from the payload, and the result is the
handler's own result with only error enrichment applied. -/
theorem handleRequest_nil_proto (e : Endpoint) (req : ServerRequest)
    (hp : e.requestProto = none) :
    HandleRequest e req = handleDecoded e req
    ∧ HandleRequest e req
      = ((e.handler req).1, (e.handler req).2.map (fun er => enrichError er req e)) := by
  constructor
  · simp [HandleRequest, hp]
  · rcases hh : e.handler req with ⟨resp, err⟩
    cases err <;> simp [HandleRequest, hp, handleDecoded, hh]

/-- C10 witness: the nil-prototype endpoint at a concrete request. -/
theorem handleRequest_nil_proto_witness :
    HandleRequest nilProtoEndpoint badDecodeRequest
      = handleDecoded nilProtoEndpoint badDecodeRequest :=
  (handleRequest_nil_proto nilProtoEndpoint badDecodeRequest rfl).1

end Typhon
